import Mathlib

/-
Verification of the vigilare daemon against its specification.

Shallow embedding conventions:
- Rust `Instant` values are modelled as `Nat` nanosecond offsets from the
  monotonic-clock origin (on Linux, boot time).  `Instant + Duration` is `Nat`
  addition; `Instant - Duration` panics in Rust when the result would precede
  the origin (`checked_sub(...).expect(...)`), modelled with `Except`.
- Rust `Duration` values are `Nat` nanosecond counts.
- `SystemTime` values are `Nat` nanoseconds since the UNIX epoch.
- Fallible operations return `Except`; a Rust panic is a distinguished error.
-/

namespace Vigilare

/-- `DurationUpdate` from protocol.rs: `Add`, `Sub`, `Set`, each carrying a
`Duration` (here a `Nat` nanosecond count). -/
inductive DurationUpdate where
  | Add : Nat → DurationUpdate
  | Sub : Nat → DurationUpdate
  | Set : Nat → DurationUpdate
deriving DecidableEq

/-- The latest representable Rust `Instant`, in nanoseconds from the
monotonic-clock origin: on Linux an `Instant` wraps a timespec whose
seconds are an `i64`, so the maximum is `i64::MAX` seconds plus 999999999
nanoseconds. -/
def instantMaxNs : Nat := 9223372036854775807 * 1000000000 + 999999999

/-- The `Instant` arithmetic performed by `update_duration` stays within the
representable range: a `Sub` does not go below the monotonic-clock origin,
and an `Add`/`Set` does not exceed the latest representable instant (so
neither the Rust `Instant - Duration` nor `Instant + Duration` panics). -/
def noPanic (cur : Option Nat) (u : DurationUpdate) (now : Nat) : Prop :=
  match u with
  | .Add d => cur.getD now + d ≤ instantMaxNs
  | .Sub d => d ≤ cur.getD now
  | .Set d => now + d ≤ instantMaxNs

instance noPanicDecidable (cur : Option Nat) (u : DurationUpdate)
    (now : Nat) : Decidable (noPanic cur u now) := by
  unfold noPanic
  cases u <;> infer_instance

/-- Number of OS resources (handles, cookies, background tasks) held by an
inhibitor whose state is the given optional handle. -/
def heldCount (state : Option Nat) : Nat :=
  if state.isSome then 1 else 0

instance exceptDecEq {ε α : Type} [DecidableEq ε] [DecidableEq α] :
    DecidableEq (Except ε α) := fun x y =>
  match x, y with
  | .ok a, .ok b =>
    if h : a = b then isTrue (by rw [h]) else isFalse (by simp [h])
  | .ok _, .error _ => isFalse (by simp)
  | .error _, .ok _ => isFalse (by simp)
  | .error e, .error f =>
    if h : e = f then isTrue (by rw [h]) else isFalse (by simp [h])

/-- Outcome of one `inhibit`/`uninhibit` call on an inhibitor variant: the
handle/cookie/task state afterwards, the returned `Result`, and how many
external OS-resource operations were performed (acquisitions for `inhibit`,
releases/aborts for `uninhibit`). -/
structure InhStep where
  state : Option Nat
  result : Except Unit Unit
  calls : Nat
deriving DecidableEq

namespace XScreensaver

/-- `XScreensaver::inhibit` (inhibitor.rs lines 128-147): if a task is
already running, return `Ok` immediately; otherwise spawn the periodic
`xset s reset` task (`fresh` is the `JoinHandle` the spawn yields;
`tokio::spawn` cannot fail, so the call always returns `Ok`). -/
def inhibit (task : Option Nat) (fresh : Nat) : InhStep :=
  match task with
  | some t => { state := some t, result := .ok (), calls := 0 }
  | none => { state := some fresh, result := .ok (), calls := 1 }

/-- `XScreensaver::uninhibit` (inhibitor.rs lines 149-154): `take` the task
and abort it if present. -/
def uninhibit (task : Option Nat) : InhStep :=
  match task with
  | some _ => { state := none, result := .ok (), calls := 1 }
  | none => { state := none, result := .ok (), calls := 0 }

end XScreensaver

namespace LogindInhibit

/-- `LogindInhibit::inhibit` (inhibitor.rs lines 197-210): if an fd is
already held, return `Ok` immediately; otherwise call the logind `Inhibit`
method (`resp` is the combined outcome of proxy creation and the call:
`ok` carries the acquired fd). -/
def inhibit (fd : Option Nat) (resp : Except Unit Nat) : InhStep :=
  match fd with
  | some f => { state := some f, result := .ok (), calls := 0 }
  | none =>
    match resp with
    | .ok f => { state := some f, result := .ok (), calls := 1 }
    | .error e => { state := none, result := .error e, calls := 0 }

/-- `LogindInhibit::uninhibit` (inhibitor.rs lines 212-216): `take` the fd;
dropping it releases the lease, no external call and no failure. -/
def uninhibit (fd : Option Nat) : InhStep :=
  { state := none, result := .ok (), calls := if fd.isSome then 1 else 0 }

end LogindInhibit

namespace XfcePowerManager

/-- `XfcePowerManager::inhibit` (inhibitor.rs lines 254-263): if a cookie is
already held, return `Ok` immediately; otherwise call the service `Inhibit`
method (`resp` combines proxy creation and the call; `ok` carries the
acquired cookie). -/
def inhibit (cookie : Option Nat) (resp : Except Unit Nat) : InhStep :=
  match cookie with
  | some c => { state := some c, result := .ok (), calls := 0 }
  | none =>
    match resp with
    | .ok c => { state := some c, result := .ok (), calls := 1 }
    | .error e => { state := none, result := .error e, calls := 0 }

/-- `XfcePowerManager::uninhibit` (inhibitor.rs lines 265-271): the cookie is
removed by `self.cookie.take()` before the external `UnInhibit` call is
issued, so the state afterwards is cookie-free even when the call fails.
`resp` is the outcome of proxy creation plus the `UnInhibit` call; `calls`
counts `UnInhibit` invocations for the held cookie (at most one; it is `1`
in the held branch, an upper bound since a proxy-creation failure would stop
before the call). -/
def uninhibit (cookie : Option Nat) (resp : Except Unit Unit) : InhStep :=
  match cookie with
  | some _ => { state := none, result := resp, calls := 1 }
  | none => { state := none, result := .ok (), calls := 0 }

end XfcePowerManager

namespace XfceScreenSaver

/-- `XfceScreenSaver::inhibit` (inhibitor.rs lines 309-318): same shape as
the power-manager variant, guarded by the stored cookie. -/
def inhibit (cookie : Option Nat) (resp : Except Unit Nat) : InhStep :=
  match cookie with
  | some c => { state := some c, result := .ok (), calls := 0 }
  | none =>
    match resp with
    | .ok c => { state := some c, result := .ok (), calls := 1 }
    | .error e => { state := none, result := .error e, calls := 0 }

/-- `XfceScreenSaver::uninhibit` (inhibitor.rs lines 320-326): `take` the
cookie first, then issue `UnInhibit`; the cookie is gone even on failure. -/
def uninhibit (cookie : Option Nat) (resp : Except Unit Unit) : InhStep :=
  match cookie with
  | some _ => { state := none, result := resp, calls := 1 }
  | none => { state := none, result := .ok (), calls := 0 }

end XfceScreenSaver

namespace MouseJitter

/-- `MouseJitter::inhibit` (inhibitor.rs lines 358-399): if a task is
already running, return `Ok` immediately; otherwise construct the input
handle (`Enigo::new`, which can fail via `?` before anything is spawned)
and spawn the jitter task; `resp` is `ok fresh` on success with the spawned
task handle. -/
def inhibit (task : Option Nat) (resp : Except Unit Nat) : InhStep :=
  match task with
  | some t => { state := some t, result := .ok (), calls := 0 }
  | none =>
    match resp with
    | .ok fresh => { state := some fresh, result := .ok (), calls := 1 }
    | .error e => { state := none, result := .error e, calls := 0 }

/-- `MouseJitter::uninhibit` (inhibitor.rs lines 401-406): `take` the task
and abort it if present. -/
def uninhibit (task : Option Nat) : InhStep :=
  match task with
  | some _ => { state := none, result := .ok (), calls := 1 }
  | none => { state := none, result := .ok (), calls := 0 }

end MouseJitter

/-- `StatusReport` from client.rs: the watcher-side projection of a status
message (`remaining_seconds` is `Some` exactly when the report is active,
as built by `StatusReport::from_status`). -/
structure StatusReport where
  active : Bool
  remaining_seconds : Option Nat
  message : String
deriving DecidableEq

/-- Rust `Duration::MAX` in nanoseconds: `u64::MAX` seconds plus
999999999 nanoseconds. -/
def durationMaxNs : Nat := 18446744073709551615 * 1000000000 + 999999999

/-- Rust `Duration::from_secs` in the nanosecond model. -/
def secsNs (s : Nat) : Nat := s * 1000000000

/-- `StatusReport::next_check_duration` from client.rs (lines 50-56): with no
remaining seconds the watcher sleeps `Duration::MAX`; with `secs` remaining
it sleeps 60 seconds when `secs` is a multiple of 60 and `secs % 60` seconds
otherwise. -/
def next_check_duration (r : StatusReport) : Nat :=
  match r.remaining_seconds with
  | none => durationMaxNs
  | some secs => if secs % 60 = 0 then secsNs 60 else secsNs (secs % 60)

/-- The re-check delay in seconds as the spec words it: sleep for
`remaining_seconds mod 60`, or 60 if that is 0 (spec-side definition). -/
def specRecheckDelay (s : Nat) : Nat :=
  if s % 60 = 0 then 60 else s % 60

/-- Numeric value of a digit string, most significant digit first. -/
def charsVal (cs : List Char) : Nat :=
  cs.foldl (fun acc c => acc * 10 + (c.toNat - 48)) 0

/-- Nanoseconds per unit suffix of the duration syntax. -/
def unitNs (unit : List Char) : Option Nat :=
  match unit with
  | ['m', 's'] => some 1000000
  | ['s'] => some 1000000000
  | ['m'] => some 60000000000
  | ['h'] => some 3600000000000
  | ['d'] => some 86400000000000
  | ['w'] => some 604800000000000
  | _ => none

/-- Modelled from the spec: `DurationString::from_str` of the external
duration-string crate, which is not part of this repository.  Per the spec
the duration syntax is a numeric+unit string such as `1h`, `30m`, `2d`: a
nonempty digit prefix followed by a unit suffix, yielding the duration in
nanoseconds. -/
def durationStringFromStr (s : String) : Option Nat :=
  let digits := s.data.takeWhile Char.isDigit
  let unit := s.data.dropWhile Char.isDigit
  if digits.isEmpty then none
  else (unitNs unit).map (fun m => charsVal digits * m)

/-- `parse_duration_update` from helper.rs (lines 7-23): dispatch on the
first character of the input (the source slices `&s[..1]`, which panics on
an empty input, modelled here as an error); `+` and `-` parse the remainder
as a duration and select `Add`/`Sub`; a first character `0` yields
`Set(Duration::ZERO)` without looking at the rest; anything else parses the
whole string as a duration and selects `Set`. -/
def parse_duration_update (s : String) : Except String DurationUpdate :=
  match s.data with
  | [] => .error "byte index 1 is out of bounds"
  | c :: rest =>
    if c = '+' then
      match durationStringFromStr (String.mk rest) with
      | some d => .ok (.Add d)
      | none => .error "invalid duration"
    else if c = '-' then
      match durationStringFromStr (String.mk rest) with
      | some d => .ok (.Sub d)
      | none => .error "invalid duration"
    else if c = '0' then .ok (.Set 0)
    else
      match durationStringFromStr s with
      | some d => .ok (.Set d)
      | none => .error "invalid duration"

end Vigilare

namespace Vigilare

/-- C6: on every Inhibitor variant, a second `inhibit` while a
handle/cookie/task is already held returns Ok immediately, leaves the stored
resource unchanged, performs no external acquisition, and the held-resource
count stays at 1. -/
theorem inhibit_idempotent_when_held (h fresh f c1 c2 t : Nat)
    (r1 r2 r3 r4 : Except Unit Nat) :
    XScreensaver.inhibit (some h) fresh = ⟨some h, .ok (), 0⟩ ∧
    LogindInhibit.inhibit (some f) r1 = ⟨some f, .ok (), 0⟩ ∧
    XfcePowerManager.inhibit (some c1) r2 = ⟨some c1, .ok (), 0⟩ ∧
    XfceScreenSaver.inhibit (some c2) r3 = ⟨some c2, .ok (), 0⟩ ∧
    MouseJitter.inhibit (some t) r4 = ⟨some t, .ok (), 0⟩ ∧
    heldCount (some h) = 1 :=
  ⟨rfl, rfl, rfl, rfl, rfl, rfl⟩

/-- C10: for the desktop-cookie variants, `uninhibit` takes the cookie out of
the state before issuing the external UnInhibit call, so the state holds no
cookie afterwards even when the call fails; a following `uninhibit` issues no
external call (the cookie is never returned twice) and a following `inhibit`
acquires a fresh cookie. -/
theorem uninhibit_removes_cookie_first (c c2 d d2 : Nat)
    (r r1 r2 q q1 q2 : Except Unit Unit) :
    (XfcePowerManager.uninhibit (some c) r).state = none ∧
    XfcePowerManager.uninhibit (some c) (.error ()) = ⟨none, .error (), 1⟩ ∧
    (XfcePowerManager.uninhibit
      (XfcePowerManager.uninhibit (some c) r1).state r2).calls = 0 ∧
    XfcePowerManager.inhibit none (.ok c2) = ⟨some c2, .ok (), 1⟩ ∧
    (XfceScreenSaver.uninhibit (some d) q).state = none ∧
    XfceScreenSaver.uninhibit (some d) (.error ()) = ⟨none, .error (), 1⟩ ∧
    (XfceScreenSaver.uninhibit
      (XfceScreenSaver.uninhibit (some d) q1).state q2).calls = 0 ∧
    XfceScreenSaver.inhibit none (.ok d2) = ⟨some d2, .ok (), 1⟩ :=
  ⟨rfl, rfl, rfl, rfl, rfl, rfl, rfl, rfl⟩

/-- C8: the status watcher's re-check delay is `remaining_seconds mod 60`
seconds (or 60 seconds when that is 0) for a report with remaining seconds,
and `Duration::MAX` — the indefinite wait, interrupted only by the next
change notification — for a report without (reports built by
`StatusReport::from_status` carry remaining seconds exactly when active). -/
theorem next_check_duration_spec (act : Bool) (msg : String) (s : Nat) :
    next_check_duration
        { active := act, remaining_seconds := some s, message := msg }
      = secsNs (specRecheckDelay s) ∧
    next_check_duration
        { active := act, remaining_seconds := none, message := msg }
      = durationMaxNs := by
  constructor
  · simp only [next_check_duration, specRecheckDelay]
    split_ifs <;> rfl
  · rfl

/-- Unfolding of `parse_duration_update` on a nonempty character list. -/
theorem parse_duration_update_cons (c : Char) (rest : List Char) :
    parse_duration_update (String.mk (c :: rest)) =
      (if c = '+' then
        match durationStringFromStr (String.mk rest) with
        | some d => .ok (.Add d)
        | none => .error "invalid duration"
      else if c = '-' then
        match durationStringFromStr (String.mk rest) with
        | some d => .ok (.Sub d)
        | none => .error "invalid duration"
      else if c = '0' then .ok (.Set 0)
      else
        match durationStringFromStr (String.mk (c :: rest)) with
        | some d => .ok (.Set d)
        | none => .error "invalid duration") :=
  rfl

/-- C9 (amended): a `+` prefix parses to Add of the remaining duration and a
`-` prefix to Sub of it; any other string whose first character is `0`
parses to Set(0) with the rest of the string ignored; every other parseable
string parses to Set of the full string's duration value. -/
theorem parse_duration_update_branches (s : String) (v : Nat) :
    (s.data.head? = some '+' →
        durationStringFromStr (String.mk s.data.tail) = some v →
        parse_duration_update s = .ok (.Add v)) ∧
    (s.data.head? = some '-' →
        durationStringFromStr (String.mk s.data.tail) = some v →
        parse_duration_update s = .ok (.Sub v)) ∧
    (s.data.head? = some '0' → parse_duration_update s = .ok (.Set 0)) ∧
    (∀ c, s.data.head? = some c → c ≠ '+' → c ≠ '-' → c ≠ '0' →
        durationStringFromStr s = some v →
        parse_duration_update s = .ok (.Set v)) := by
  refine ⟨?_, ?_, ?_, ?_⟩
  · intro h1 h2
    rcases hs : s.data with _ | ⟨c, rest⟩
    · rw [hs] at h1; simp at h1
    · rw [hs] at h1 h2
      simp only [List.head?_cons, Option.some.injEq] at h1
      subst h1
      simp only [List.tail_cons] at h2
      simp only [parse_duration_update, hs]
      simp [h2]
  · intro h1 h2
    rcases hs : s.data with _ | ⟨c, rest⟩
    · rw [hs] at h1; simp at h1
    · rw [hs] at h1 h2
      simp only [List.head?_cons, Option.some.injEq] at h1
      subst h1
      simp only [List.tail_cons] at h2
      simp only [parse_duration_update, hs]
      simp [h2]
  · intro h1
    rcases hs : s.data with _ | ⟨c, rest⟩
    · rw [hs] at h1; simp at h1
    · rw [hs] at h1
      simp only [List.head?_cons, Option.some.injEq] at h1
      subst h1
      simp only [parse_duration_update, hs]
      simp
  · intro c h1 hp hm hz hv
    rcases hs : s.data with _ | ⟨c', rest⟩
    · rw [hs] at h1; simp at h1
    · rw [hs] at h1
      simp only [List.head?_cons, Option.some.injEq] at h1
      subst h1
      simp only [parse_duration_update, hs]
      simp [hp, hm, hz, hv]

theorem parse_duration_update_branches_witness :
    parse_duration_update (String.mk ['+', '1', 'h'])
      = .ok (.Add 3600000000000) := by
  have h := (parse_duration_update_branches
    (String.mk ['+', '1', 'h']) 3600000000000).1
  exact h (by decide) (by decide)

/-- C9 counterexample: the string 01h is a parseable numeric+unit duration
(one hour), but because its first character is `0` the parser returns
Set(Duration::ZERO), not Set of the full string's duration value. -/
theorem zero_first_char_cex :
    parse_duration_update (String.mk ['0', '1', 'h']) = .ok (.Set 0) ∧
    durationStringFromStr (String.mk ['0', '1', 'h'])
      = some 3600000000000 ∧
    (Except.ok (DurationUpdate.Set 0) : Except String DurationUpdate)
      ≠ .ok (.Set 3600000000000) :=
  ⟨by decide, by decide, by decide⟩

end Vigilare
